import Mathlib

/-!
Shallow embedding of the judging pipeline of `src/api/executor.py`
(an online judge: sandboxed execution, checker runs, verdict aggregation).

Side effects of the Python code (Docker container runs, exceptions raised by
the Docker client, datastore writes) are modelled explicitly: each container
interaction is an element of a small "world" datatype recording what the
sandbox did (normal completion with exit status / elapsed time / stdout /
stderr / memory usage, a `docker.errors.APIError`, or some other raised
exception), and the judge's datastore writes are collected into a list.
Pure control flow is translated function by function from the source.
-/

/-- All verdict strings appearing in `executor.py`: per-execution verdicts
(`SUCCESS`, `CE`, `RE`, `TLE`, `MLE`), per-test and final verdicts
(`AC`, `WA`, ...), and submission states (`PENDING`, `JUDGING`). -/
inductive Verdict where
  | SUCCESS
  | CE
  | RE
  | TLE
  | MLE
  | AC
  | WA
  | PENDING
  | JUDGING
deriving DecidableEq, Repr

/-- Python's `str.strip()` (leading/trailing whitespace removed). -/
def pyStrip (s : String) : String :=
  ⟨((s.data.dropWhile Char.isWhitespace).reverse.dropWhile Char.isWhitespace).reverse⟩

/-- Python's `str.upper()`. -/
def pyUpper (s : String) : String :=
  ⟨s.data.map Char.toUpper⟩

/-- Python's `str.lower()`. -/
def pyLower (s : String) : String :=
  ⟨s.data.map Char.toLower⟩

/-- Whether `pat` occurs at the start of `s`. -/
def startsWithChars (pat : List Char) (s : List Char) : Bool :=
  match pat, s with
  | [], _ => true
  | _ :: _, [] => false
  | p :: ps, c :: cs => p == c && startsWithChars ps cs

/-- Whether `pat` occurs as a contiguous substring of `s`
(Python's `pat in s` on strings). -/
def hasSubstr (pat : List Char) : List Char → Bool
  | [] => startsWithChars pat []
  | c :: cs => startsWithChars pat (c :: cs) || hasSubstr pat cs

/-- Python's `pat in s` for strings. -/
def hasSubstrStr (pat s : String) : Bool :=
  hasSubstr pat.data s.data

/-- One entry of `CodeExecutor.language_configs`.  The source's dictionary key
for `runCmd` is spelled with an underscore; that spelling is not a usable
field name in this development. -/
structure LangConfig where
  image : String
  compile_cmd : Option (List String)
  runCmd : List String
  file_ext : String
  timeout : Nat
deriving DecidableEq, Repr

/-- `CodeExecutor.language_configs` (executor.py lines 17-39), as the lookup
`self.language_configs.get(language)`. -/
def language_configs (language : String) : Option LangConfig :=
  if language = "c" then
    some ⟨"gcc:11-alpine",
          some ["gcc", "-o", "/tmp/solution", "/tmp/solution.c", "-std=c11", "-O2"],
          ["/tmp/solution"], ".c", 10⟩
  else if language = "python" then
    some ⟨"python:3.11-alpine", none, ["python3", "/tmp/solution.py"], ".py", 10⟩
  else if language = "javascript" then
    some ⟨"node:20-alpine", none, ["node", "/tmp/solution.js"], ".js", 10⟩
  else
    none

/-- What the run container did: `run_container.wait` returned (carrying the
exit `StatusCode`, the elapsed wall time in ms, the stdout and stderr logs and
the memory usage in bytes read from `stats`), or a `docker.errors.APIError`
was raised with message `str(e)`, or some other exception was raised. -/
inductive RunPhase where
  | completed (statusCode : Int) (elapsedMs : Nat) (stdout stderr : String) (usageBytes : Nat)
  | apiError (msg : String)
  | raised (msg : String)
deriving DecidableEq, Repr

/-- What the compile container did (consulted only when the language profile
has a compile command): `compile_container.wait` returned with a status code
and logs, or an exception was raised. -/
inductive CompilePhase where
  | finished (statusCode : Int) (logs : String)
  | raised (msg : String)
deriving DecidableEq, Repr

/-- The observable behaviour of the sandbox during one `execute_code` call:
an exception during temp-directory/file setup (if any), the compile phase,
and the run phase. -/
structure ExecWorld where
  setup : Option String
  compile : CompilePhase
  run : RunPhase
deriving DecidableEq, Repr

/-- The result dictionary returned by `execute_code`.  Keys absent from a
given return site are the defaults the callers read back via `.get`
(`""` for strings, `0` for numbers). -/
structure ExecResult where
  verdict : Verdict
  output : String := ""
  error : String := ""
  execution_time : Nat := 0
  memory_used : Nat := 0
deriving DecidableEq, Repr

/-- Classification of the run phase (executor.py lines 114-150): the inner
`try` around `run_container.wait`, the TLE/RE/MLE/SUCCESS classification, and
the `docker.errors.APIError` handler; a re-raised `APIError` and any other
exception land in the outer handler of line 152 (`RE`, time 0, memory 0). -/
def classify_wait (time_limit memory_limit : Nat) (rp : RunPhase) : ExecResult :=
  match rp with
  | RunPhase.completed statusCode elapsedMs stdout stderr usageBytes =>
    let execution_time := elapsedMs
    let memory_used := usageBytes / 1024
    if statusCode ≠ 0 then
      if execution_time ≥ time_limit then
        { verdict := Verdict.TLE, execution_time := execution_time, memory_used := memory_used }
      else
        { verdict := Verdict.RE, error := stderr,
          execution_time := execution_time, memory_used := memory_used }
    else if memory_used > memory_limit * 1024 then
      { verdict := Verdict.MLE, execution_time := execution_time, memory_used := memory_used }
    else
      { verdict := Verdict.SUCCESS, output := pyStrip stdout,
        execution_time := execution_time, memory_used := memory_used }
  | RunPhase.apiError msg =>
    if hasSubstrStr "timeout" (pyLower msg) then
      { verdict := Verdict.TLE, execution_time := time_limit, memory_used := 0 }
    else
      { verdict := Verdict.RE, error := msg, execution_time := 0, memory_used := 0 }
  | RunPhase.raised msg =>
    { verdict := Verdict.RE, error := msg, execution_time := 0, memory_used := 0 }

/-- `CodeExecutor.execute_code` (executor.py lines 41-153).  The `code` and
`test_input` strings are written into the sandbox and influence the outcome
only through the world `w`. -/
def execute_code (language code test_input : String) (time_limit memory_limit : Nat)
    (w : ExecWorld) : ExecResult :=
  match language_configs language with
  | none => { verdict := Verdict.CE, error := "Unsupported language" }
  | some config =>
    match w.setup with
    | some msg =>
      { verdict := Verdict.RE, error := msg, execution_time := 0, memory_used := 0 }
    | none =>
      match config.compile_cmd with
      | some _ =>
        match w.compile with
        | CompilePhase.raised msg =>
          { verdict := Verdict.RE, error := msg, execution_time := 0, memory_used := 0 }
        | CompilePhase.finished statusCode logs =>
          if statusCode ≠ 0 then
            { verdict := Verdict.CE, error := logs, execution_time := 0, memory_used := 0 }
          else
            classify_wait time_limit memory_limit w.run
      | none => classify_wait time_limit memory_limit w.run

theorem classify_wait_verdict_cases (tl ml : Nat) (rp : RunPhase) :
    (classify_wait tl ml rp).verdict = Verdict.TLE ∨
    (classify_wait tl ml rp).verdict = Verdict.MLE ∨
    (classify_wait tl ml rp).verdict = Verdict.RE ∨
    (classify_wait tl ml rp).verdict = Verdict.SUCCESS := by
  cases rp with
  | completed statusCode elapsedMs stdout stderr usageBytes =>
    simp only [classify_wait]
    split_ifs <;> simp
  | apiError msg =>
    simp only [classify_wait]
    split_ifs <;> simp
  | raised msg => simp [classify_wait]

theorem execute_code_verdict_cases (language code test_input : String)
    (tl ml : Nat) (w : ExecWorld) :
    (execute_code language code test_input tl ml w).verdict = Verdict.CE ∨
    (execute_code language code test_input tl ml w).verdict = Verdict.TLE ∨
    (execute_code language code test_input tl ml w).verdict = Verdict.MLE ∨
    (execute_code language code test_input tl ml w).verdict = Verdict.RE ∨
    (execute_code language code test_input tl ml w).verdict = Verdict.SUCCESS := by
  obtain ⟨setup, compile, run⟩ := w
  unfold execute_code
  rcases language_configs language with _ | ⟨img, ccmd, rcmd, ext, tmo⟩
  · simp
  · rcases setup with _ | msg
    · rcases ccmd with _ | cmd
      · exact Or.inr (classify_wait_verdict_cases tl ml run)
      · rcases compile with ⟨statusCode, logs⟩ | msg
        · by_cases h0 : statusCode = 0
          · subst h0
            simpa using Or.inr (classify_wait_verdict_cases tl ml run)
          · simp [h0]
        · simp
    · simp

theorem execute_code_verdict_ne_AC (language code test_input : String)
    (tl ml : Nat) (w : ExecWorld) :
    (execute_code language code test_input tl ml w).verdict ≠ Verdict.AC := by
  rcases execute_code_verdict_cases language code test_input tl ml w with
    h | h | h | h | h <;> simp [h]

/-- The stdin payload `json.dumps({"input": ..., "expected": ..., "actual": ...})`
built in `run_dynamic_checker` (executor.py lines 160-164).  JSON string
escaping is not modelled; the payload influences the checker run only
through the checker's `ExecWorld`. -/
def checker_input_payload (test_input expected_output user_output : String) : String :=
  "\x7b\"input\": \"" ++ test_input ++ "\", \"expected\": \"" ++ expected_output ++
    "\", \"actual\": \"" ++ user_output ++ "\"\x7d"

/-- `run_dynamic_checker` (executor.py lines 155-173).  `w` is the behaviour
of the sandbox during the checker execution. -/
def run_dynamic_checker (checker_code checker_language user_output expected_output
    test_input : String) (w : ExecWorld) : Bool × String :=
  let checker_input := checker_input_payload test_input expected_output user_output
  let result := execute_code checker_language checker_code checker_input 5000 64 w
  if result.verdict ≠ Verdict.SUCCESS then
    (false, "Checker execution failed")
  else
    (pyUpper (pyStrip result.output) == "ACCEPT", result.output)

/-- One element of a problem's `test_cases` list. -/
structure TestCase where
  input : String
  expected_output : String
deriving DecidableEq, Repr

/-- One per-test dictionary appended to `results` in `judge_submission`
(executor.py lines 218-224 and 247-253).  Records appended on a non-SUCCESS
execution carry `error` and no `checker_message`; records appended after a
successful execution carry `checker_message` and no `error`; the missing key
is modelled as `""`. -/
structure TestRecord where
  test_case : Nat
  verdict : Verdict
  execution_time : Nat
  memory_used : Nat
  error : String := ""
  checker_message : String := ""
deriving DecidableEq, Repr

/-- The row read from the `problems` table that `judge_submission` consumes. -/
structure Problem where
  test_cases : List TestCase
  time_limit : Nat
  memory_limit : Nat
  checker_code : Option String
  checker_language : Option String
deriving DecidableEq, Repr

/-- Python truthiness of an optional string (`None` and `""` are falsy),
used for `if checker_code and checker_language:` (executor.py line 231). -/
def pyTruthy : Option String → Bool
  | none => false
  | some s => !s.isEmpty

/-- Accumulated loop state of the test-case loop of `judge_submission`:
`results`, `passed_count`, `max_time`, `max_memory`. -/
structure LoopState where
  results : List TestRecord
  passed : Nat
  maxTime : Nat
  maxMemory : Nat
deriving DecidableEq, Repr

/-- The correctness decision for one successful execution (executor.py lines
231-239): the dynamic checker when both checker fields are truthy, otherwise
the trimmed literal comparison, paired with the checker message. -/
def test_correctness (checker_code checker_language : Option String)
    (user_output expected_output test_input : String) (w : ExecWorld) : Bool × String :=
  if pyTruthy checker_code && pyTruthy checker_language then
    run_dynamic_checker (checker_code.getD "") (checker_language.getD "")
      user_output expected_output test_input w
  else
    (pyStrip user_output == pyStrip expected_output, "")

/-- The `for i, test_case in enumerate(test_cases)` loop of `judge_submission`
(executor.py lines 207-256).  `runW i` is the sandbox behaviour for the user
program on test `i`; `chkW i` is the sandbox behaviour for the checker run on
test `i`.  The loop breaks after appending a record for the first non-SUCCESS
execution or the first incorrect answer. -/
def judgeTests (language code : String) (time_limit memory_limit : Nat)
    (checker_code checker_language : Option String)
    (runW chkW : Nat → ExecWorld) : List TestCase → Nat → LoopState
  | [], _ => ⟨[], 0, 0, 0⟩
  | tc :: rest, i =>
    let result := execute_code language code tc.input time_limit memory_limit (runW i)
    if result.verdict ≠ Verdict.SUCCESS then
      ⟨[⟨i + 1, result.verdict, result.execution_time, result.memory_used, result.error, ""⟩],
       0, result.execution_time, result.memory_used⟩
    else
      let pair := test_correctness checker_code checker_language
        result.output tc.expected_output tc.input (chkW i)
      if pair.1 then
        let s := judgeTests language code time_limit memory_limit
          checker_code checker_language runW chkW rest (i + 1)
        ⟨⟨i + 1, Verdict.AC, result.execution_time, result.memory_used, "", pair.2⟩ :: s.results,
         s.passed + 1, max result.execution_time s.maxTime, max result.memory_used s.maxMemory⟩
      else
        ⟨[⟨i + 1, Verdict.WA, result.execution_time, result.memory_used, "", pair.2⟩],
         0, result.execution_time, result.memory_used⟩

/-- The final-verdict aggregation of `judge_submission` (executor.py lines
258-271): `AC` when every test case passed, otherwise the first hit in the
chain `TLE`, `MLE`, `RE`, with `WA` as the fallthrough. -/
def finalVerdictOf (passed_count total : Nat) (results : List TestRecord) : Verdict :=
  if passed_count = total then Verdict.AC
  else if (results.map fun r => r.verdict).contains Verdict.TLE then Verdict.TLE
  else if (results.map fun r => r.verdict).contains Verdict.MLE then Verdict.MLE
  else if (results.map fun r => r.verdict).contains Verdict.RE then Verdict.RE
  else Verdict.WA

/-- The `update_data` dictionary written back to the `submissions` row
(executor.py lines 274-282), minus the timestamp. -/
structure JudgeOutcome where
  verdict : Verdict
  execution_time : Nat
  memory_used : Nat
  test_cases_passed : Nat
  total_test_cases : Nat
  judge_output : List TestRecord
deriving DecidableEq, Repr

/-- `judge_submission` (executor.py lines 175-284) for a job whose problem row
was found: run the test-case loop, aggregate, and produce the final update. -/
def judge_submission (language code : String) (problem : Problem)
    (runW chkW : Nat → ExecWorld) : JudgeOutcome :=
  let s := judgeTests language code problem.time_limit problem.memory_limit
    problem.checker_code problem.checker_language runW chkW problem.test_cases 0
  { verdict := finalVerdictOf s.passed problem.test_cases.length s.results,
    execution_time := s.maxTime,
    memory_used := s.maxMemory,
    test_cases_passed := s.passed,
    total_test_cases := problem.test_cases.length,
    judge_output := s.results }

/-- One write issued by the judge against the `submissions` row. -/
inductive JudgeWrite where
  | setVerdict (v : Verdict)
  | finalUpdate (o : JudgeOutcome)
deriving DecidableEq, Repr

/-- The sequence of `submissions`-row writes `judge_submission` performs for
one job: the unconditional `{"verdict": "JUDGING"}` update of line 187, then
(only when the problem row is found, line 191) the final update of line 284.
When the problem is missing the function returns with no further write. -/
def judge_submission_writes (language code : String) (problem : Option Problem)
    (runW chkW : Nat → ExecWorld) : List JudgeWrite :=
  JudgeWrite.setVerdict Verdict.JUDGING ::
    match problem with
    | none => []
    | some p => [JudgeWrite.finalUpdate (judge_submission language code p runW chkW)]

/-- Submission states that are terminal in the spec's state machine
(everything except `PENDING` and `JUDGING`; `SUCCESS` is a per-execution
verdict that never reaches a submission row). -/
def isTerminal : Verdict → Bool
  | Verdict.AC | Verdict.WA | Verdict.TLE | Verdict.MLE | Verdict.RE | Verdict.CE => true
  | _ => false

/-- The successive values taken by the `verdict` column of the submission row
while one job is processed: the initial value, then the value after each
write the judge issues. -/
def submissionVerdictTrace (s0 : Verdict) (language code : String)
    (problem : Option Problem) (runW chkW : Nat → ExecWorld) : List Verdict :=
  s0 :: (judge_submission_writes language code problem runW chkW).map fun w =>
    match w with
    | JudgeWrite.setVerdict v => v
    | JudgeWrite.finalUpdate o => o.verdict

theorem finalVerdictOf_eq_AC_iff (p t : Nat) (rs : List TestRecord) :
    finalVerdictOf p t rs = Verdict.AC ↔ p = t := by
  unfold finalVerdictOf
  split_ifs <;> simp_all

/-- C2: for every judged submission, the final verdict is `AC` if and only if
the number of passed test cases equals the total number of test cases. -/
theorem verdict_AC_iff_all_passed (language code : String) (problem : Problem)
    (runW chkW : Nat → ExecWorld) :
    (judge_submission language code problem runW chkW).verdict = Verdict.AC ↔
      (judge_submission language code problem runW chkW).test_cases_passed =
        (judge_submission language code problem runW chkW).total_test_cases := by
  simp only [judge_submission]
  exact finalVerdictOf_eq_AC_iff _ _ _

theorem judgeTests_invariant (language code : String) (tl ml : Nat)
    (cc cl : Option String) (runW chkW : Nat → ExecWorld) :
    ∀ (cases : List TestCase) (i : Nat),
      (judgeTests language code tl ml cc cl runW chkW cases i).results.length ≤
        cases.length ∧
      ((judgeTests language code tl ml cc cl runW chkW cases i).results.length <
          cases.length →
        (∃ last, (judgeTests language code tl ml cc cl runW chkW cases i).results.getLast?
            = some last ∧ last.verdict ≠ Verdict.AC) ∧
        (judgeTests language code tl ml cc cl runW chkW cases i).results.length =
          (judgeTests language code tl ml cc cl runW chkW cases i).passed + 1) := by
  intro cases
  induction cases with
  | nil => intro i; simp [judgeTests]
  | cons tc rest ih =>
    intro i
    simp only [judgeTests]
    by_cases hv :
        (execute_code language code tc.input tl ml (runW i)).verdict ≠ Verdict.SUCCESS
    · rw [if_pos hv]
      refine ⟨by simp, fun _ => ⟨⟨_, List.getLast?_singleton _, ?_⟩, by simp⟩⟩
      exact execute_code_verdict_ne_AC language code tc.input tl ml (runW i)
    · rw [if_neg hv]
      by_cases hc : (test_correctness cc cl
          (execute_code language code tc.input tl ml (runW i)).output
          tc.expected_output tc.input (chkW i)).1
      · rw [if_pos hc]
        obtain ⟨ihle, ihlt⟩ := ih (i + 1)
        refine ⟨by simpa using Nat.succ_le_succ ihle, fun hlen => ?_⟩
        have hlt : (judgeTests language code tl ml cc cl runW chkW rest (i + 1)).results.length
            < rest.length := by simpa using hlen
        obtain ⟨⟨last, hlast, hne⟩, heq⟩ := ihlt hlt
        rcases htail : (judgeTests language code tl ml cc cl runW chkW rest (i + 1)).results
          with _ | ⟨b, l⟩
        · rw [htail] at hlast; simp at hlast
        · rw [htail] at hlast heq
          refine ⟨⟨last, ?_, hne⟩, by simpa using heq⟩
          simpa [htail, List.getLast?_cons_cons] using hlast
      · rw [if_neg hc]
        exact ⟨by simp, fun _ => ⟨⟨_, List.getLast?_singleton _, by simp⟩, by simp⟩⟩

/-- C3: for every judged submission, the number of recorded per-test results
is at most the number of test cases, and on an early stop (fewer records than
test cases) the last record's verdict is not `AC` and the number of records is
`test_cases_passed + 1`. -/
theorem judge_output_length_invariant (language code : String) (problem : Problem)
    (runW chkW : Nat → ExecWorld) :
    (judge_submission language code problem runW chkW).judge_output.length ≤
      (judge_submission language code problem runW chkW).total_test_cases ∧
    ((judge_submission language code problem runW chkW).judge_output.length <
        (judge_submission language code problem runW chkW).total_test_cases →
      (∃ last, (judge_submission language code problem runW chkW).judge_output.getLast?
          = some last ∧ last.verdict ≠ Verdict.AC) ∧
      (judge_submission language code problem runW chkW).judge_output.length =
        (judge_submission language code problem runW chkW).test_cases_passed + 1) := by
  simpa only [judge_submission] using
    judgeTests_invariant language code problem.time_limit problem.memory_limit
      problem.checker_code problem.checker_language runW chkW problem.test_cases 0

/-- Modelled from the spec's words: the worst verdict of a list of recorded
per-test verdicts under the priority order CE > TLE > MLE > RE > WA. -/
def specWorstVerdict (vs : List Verdict) : Verdict :=
  if vs.contains Verdict.CE then Verdict.CE
  else if vs.contains Verdict.TLE then Verdict.TLE
  else if vs.contains Verdict.MLE then Verdict.MLE
  else if vs.contains Verdict.RE then Verdict.RE
  else Verdict.WA

/-- A problem with a single test case expecting output `1`, no checker. -/
def probNoChecker : Problem := ⟨[⟨"1", "1"⟩], 1000, 64, none, none⟩

/-- A sandbox behaviour: the program exits 0 instantly printing `1`. -/
def acWorld : ExecWorld :=
  ⟨none, CompilePhase.finished 0 "", RunPhase.completed 0 3 "1\n" "" 0⟩

/-- A sandbox behaviour: compilation fails with a diagnostic. -/
def ceWorld : ExecWorld :=
  ⟨none, CompilePhase.finished 1 "solution.c:1: error", RunPhase.completed 0 0 "" "" 0⟩

/-- A sandbox behaviour: `wait` raises a `docker.errors.APIError` whose
message mentions a timeout. -/
def tleWorld : ExecWorld :=
  ⟨none, CompilePhase.finished 0 "", RunPhase.apiError "Read timeout (5s)"⟩

/-- C1 fails as stated: a C submission whose compilation fails gets the
per-test verdict `CE` recorded, whose worst verdict under the order
CE > TLE > MLE > RE > WA is `CE`, yet the final verdict computed by
`judge_submission` is `WA`. -/
theorem aggregation_drops_CE_counterexample :
    ((judge_submission "c" "int main(" probNoChecker (fun _ => ceWorld)
        (fun _ => ceWorld)).judge_output.map fun r => r.verdict) = [Verdict.CE] ∧
    specWorstVerdict [Verdict.CE] = Verdict.CE ∧
    (judge_submission "c" "int main(" probNoChecker (fun _ => ceWorld)
        (fun _ => ceWorld)).verdict = Verdict.WA ∧
    Verdict.WA ≠ Verdict.CE := by
  decide

/-- C1 amended: when the recorded per-test results are not all AC and contain
no `CE` record, the final verdict is the worst recorded verdict under the
priority order TLE > MLE > RE > WA (which on CE-free records agrees with the
spec's order CE > TLE > MLE > RE > WA); a recorded `CE` falls through to `WA`
instead of taking top priority. -/
theorem aggregation_worst_of_records (language code : String) (problem : Problem)
    (runW chkW : Nat → ExecWorld)
    (hnoCE : ((judge_submission language code problem runW chkW).judge_output.map
        fun r => r.verdict).contains Verdict.CE = false)
    (hne : (judge_submission language code problem runW chkW).test_cases_passed ≠
        (judge_submission language code problem runW chkW).total_test_cases) :
    (judge_submission language code problem runW chkW).verdict =
      specWorstVerdict ((judge_submission language code problem runW chkW).judge_output.map
        fun r => r.verdict) := by
  simp only [judge_submission] at hnoCE hne ⊢
  unfold finalVerdictOf specWorstVerdict
  rw [if_neg hne, hnoCE]
  simp

/-- Concrete instance of the amended C1: a single-test submission whose run
raised a timeout `APIError` gets final verdict equal to the worst recorded
verdict (here `TLE`). -/
theorem aggregation_worst_of_records_witness :
    (judge_submission "python" "while True: pass" probNoChecker (fun _ => tleWorld)
        (fun _ => tleWorld)).verdict =
      specWorstVerdict ((judge_submission "python" "while True: pass" probNoChecker
        (fun _ => tleWorld) (fun _ => tleWorld)).judge_output.map fun r => r.verdict) :=
  aggregation_worst_of_records "python" "while True: pass" probNoChecker
    (fun _ => tleWorld) (fun _ => tleWorld) (by decide) (by decide)

/-- A two-test problem used to exhibit an early stop. -/
def probTwo : Problem := ⟨[⟨"a", "1"⟩, ⟨"b", "2"⟩], 1000, 64, none, none⟩

/-- A sandbox behaviour: the program exits 0 printing a wrong answer. -/
def waWorld : ExecWorld :=
  ⟨none, CompilePhase.finished 0 "", RunPhase.completed 0 4 "wrong\n" "" 0⟩

/-- Concrete early stop: a wrong answer on test 1 of 2 leaves one record, its
verdict is not `AC`, and the record count is `test_cases_passed + 1`. -/
theorem judge_output_length_invariant_witness :
    (∃ last, (judge_submission "python" "print(0)" probTwo (fun _ => waWorld)
        (fun _ => waWorld)).judge_output.getLast? = some last ∧
        last.verdict ≠ Verdict.AC) ∧
    (judge_submission "python" "print(0)" probTwo (fun _ => waWorld)
        (fun _ => waWorld)).judge_output.length =
      (judge_submission "python" "print(0)" probTwo (fun _ => waWorld)
        (fun _ => waWorld)).test_cases_passed + 1 :=
  (judge_output_length_invariant "python" "print(0)" probTwo (fun _ => waWorld)
    (fun _ => waWorld)).2 (by decide)

theorem isTerminal_finalVerdictOf (p t : Nat) (rs : List TestRecord) :
    isTerminal (finalVerdictOf p t rs) = true := by
  unfold finalVerdictOf
  split_ifs <;> rfl

/-- C4 fails as stated: for a submission already in the terminal state `AC`,
a redelivered job is not dropped — the judge's first write moves the row back
to the non-terminal state `JUDGING` and the row is modified. -/
theorem redelivery_not_dropped_counterexample :
    isTerminal Verdict.AC = true ∧
    submissionVerdictTrace Verdict.AC "python" "print(1)" (some probNoChecker)
        (fun _ => acWorld) (fun _ => acWorld) =
      [Verdict.AC, Verdict.JUDGING, Verdict.AC] ∧
    isTerminal Verdict.JUDGING = false ∧
    judge_submission_writes "python" "print(1)" (some probNoChecker)
        (fun _ => acWorld) (fun _ => acWorld) ≠ [] := by
  decide

/-- C4 amended: the judge unconditionally rewrites the row to `JUDGING` as
its first action, whatever the current state (including terminal ones, so a
redelivered job is re-judged rather than dropped), and then — when the
problem row loads — to the terminal final verdict. -/
theorem unconditional_judging_transition (s0 : Verdict) (language code : String)
    (problem : Problem) (runW chkW : Nat → ExecWorld) :
    submissionVerdictTrace s0 language code (some problem) runW chkW =
      [s0, Verdict.JUDGING, (judge_submission language code problem runW chkW).verdict] ∧
    isTerminal (judge_submission language code problem runW chkW).verdict = true := by
  refine ⟨rfl, ?_⟩
  simp only [judge_submission]
  exact isTerminal_finalVerdictOf _ _ _

/-- C5 fails as stated: when the problem row is missing, the judge's writes
consist solely of the `JUDGING` update — no `RE` verdict and no
`"problem not found"` message are recorded; the row is left in `JUDGING`. -/
theorem missing_problem_counterexample :
    judge_submission_writes "python" "print(1)" none (fun _ => acWorld)
        (fun _ => acWorld) = [JudgeWrite.setVerdict Verdict.JUDGING] ∧
    Verdict.JUDGING ≠ Verdict.RE := by
  decide

/-- C5 amended: for every job whose problem cannot be loaded, the judge stops
processing after its initial `JUDGING` update and records nothing else, so
the submission stays in `JUDGING` with no verdict or message written. -/
theorem missing_problem_silent_return (language code : String)
    (runW chkW : Nat → ExecWorld) :
    judge_submission_writes language code none runW chkW =
      [JudgeWrite.setVerdict Verdict.JUDGING] :=
  rfl

/-- Modelled from the spec's words: the first non-whitespace token of the
checker's stdout, case-folded to upper case. -/
def specFirstToken (s : String) : String :=
  ⟨((s.data.dropWhile Char.isWhitespace).takeWhile fun c => !c.isWhitespace).map
    Char.toUpper⟩

/-- A sandbox behaviour: the checker exits 0 printing `ACCEPT ok`. -/
def checkerMultiTokenWorld : ExecWorld :=
  ⟨none, CompilePhase.finished 0 "", RunPhase.completed 0 4 "ACCEPT ok\n" "" 0⟩

/-- C6 fails as stated: a checker run that executes successfully and prints
`ACCEPT ok` has first non-whitespace token `ACCEPT`, yet the runner rejects
(it compares the entire stripped, upper-cased stdout against `ACCEPT`), and
the returned message is the stripped stdout, not the verbatim stdout. -/
theorem checker_first_token_counterexample :
    (execute_code "python" "chk" (checker_input_payload "i" "e" "a") 5000 64
        checkerMultiTokenWorld).verdict = Verdict.SUCCESS ∧
    specFirstToken "ACCEPT ok\n" = "ACCEPT" ∧
    (run_dynamic_checker "chk" "python" "a" "e" "i" checkerMultiTokenWorld).1 = false ∧
    (run_dynamic_checker "chk" "python" "a" "e" "i" checkerMultiTokenWorld).2 ≠
      "ACCEPT ok\n" := by
  decide

/-- C6 amended: for every checker run that executes successfully, acceptance
is decided by comparing the whole of the checker's stdout, stripped of
leading/trailing whitespace and case-folded to upper case, against `ACCEPT`
(so any extra token rejects), and the message returned is the stripped stdout
stored in the execution result. -/
theorem checker_decision_whole_output (checker_code checker_language user_output
    expected_output test_input : String) (w : ExecWorld)
    (h : (execute_code checker_language checker_code
        (checker_input_payload test_input expected_output user_output) 5000 64 w).verdict =
      Verdict.SUCCESS) :
    run_dynamic_checker checker_code checker_language user_output expected_output
        test_input w =
      (pyUpper (pyStrip (execute_code checker_language checker_code
          (checker_input_payload test_input expected_output user_output) 5000 64 w).output)
        == "ACCEPT",
       (execute_code checker_language checker_code
          (checker_input_payload test_input expected_output user_output) 5000 64 w).output) := by
  unfold run_dynamic_checker
  simp [h]

/-- A sandbox behaviour: the checker exits 0 printing `accept`. -/
def checkerAcceptWorld : ExecWorld :=
  ⟨none, CompilePhase.finished 0 "", RunPhase.completed 0 4 "accept\n" "" 0⟩

/-- Concrete instance of the amended C6 at a successful checker run. -/
theorem checker_decision_whole_output_witness :
    run_dynamic_checker "chk" "python" "7" "7" "in" checkerAcceptWorld =
      (pyUpper (pyStrip (execute_code "python" "chk"
          (checker_input_payload "in" "7" "7") 5000 64 checkerAcceptWorld).output)
        == "ACCEPT",
       (execute_code "python" "chk" (checker_input_payload "in" "7" "7") 5000 64
          checkerAcceptWorld).output) :=
  checker_decision_whole_output "chk" "python" "7" "7" "in" checkerAcceptWorld (by decide)

/-- C7: a checker invocation whose execution yields a non-SUCCESS verdict
makes the runner return `(false, "Checker execution failed")`, and the
pipeline then records `WA` on the offending test case with that message
attached and stops there, the final verdict being `WA` rather than a
whole-submission failure. -/
theorem checker_failure_reports_WA (checker_code checker_language language code : String)
    (tl ml : Nat) (runW chkW : Nat → ExecWorld) (tc : TestCase) (rest : List TestCase)
    (hcc : checker_code.isEmpty = false) (hcl : checker_language.isEmpty = false)
    (hrun : (execute_code language code tc.input tl ml (runW 0)).verdict = Verdict.SUCCESS)
    (hchk : (execute_code checker_language checker_code
        (checker_input_payload tc.input tc.expected_output
          (execute_code language code tc.input tl ml (runW 0)).output) 5000 64
        (chkW 0)).verdict ≠ Verdict.SUCCESS) :
    run_dynamic_checker checker_code checker_language
        (execute_code language code tc.input tl ml (runW 0)).output tc.expected_output
        tc.input (chkW 0) = (false, "Checker execution failed") ∧
    (judge_submission language code
        ⟨tc :: rest, tl, ml, some checker_code, some checker_language⟩ runW
        chkW).judge_output =
      [⟨1, Verdict.WA, (execute_code language code tc.input tl ml (runW 0)).execution_time,
        (execute_code language code tc.input tl ml (runW 0)).memory_used, "",
        "Checker execution failed"⟩] ∧
    (judge_submission language code
        ⟨tc :: rest, tl, ml, some checker_code, some checker_language⟩ runW
        chkW).verdict = Verdict.WA := by
  have h1 : run_dynamic_checker checker_code checker_language
      (execute_code language code tc.input tl ml (runW 0)).output tc.expected_output
      tc.input (chkW 0) = (false, "Checker execution failed") := by
    unfold run_dynamic_checker
    simp [hchk]
  have hpair : test_correctness (some checker_code) (some checker_language)
      (execute_code language code tc.input tl ml (runW 0)).output tc.expected_output
      tc.input (chkW 0) = (false, "Checker execution failed") := by
    unfold test_correctness
    simp [pyTruthy, hcc, hcl, h1]
  have hloop : judgeTests language code tl ml (some checker_code) (some checker_language)
      runW chkW (tc :: rest) 0 =
      ⟨[⟨1, Verdict.WA, (execute_code language code tc.input tl ml (runW 0)).execution_time,
          (execute_code language code tc.input tl ml (runW 0)).memory_used, "",
          "Checker execution failed"⟩],
        0, (execute_code language code tc.input tl ml (runW 0)).execution_time,
        (execute_code language code tc.input tl ml (runW 0)).memory_used⟩ := by
    simp only [judgeTests, hpair]
    simp [hrun]
  refine ⟨h1, ?_, ?_⟩
  · simp [judge_submission, hloop]
  · simp [judge_submission, hloop, finalVerdictOf]

/-- A sandbox behaviour: the checker run raises a non-timeout exception. -/
def checkerRaisesWorld : ExecWorld :=
  ⟨none, CompilePhase.finished 0 "", RunPhase.raised "container start failure"⟩

/-- Concrete instance of C7: a successful user run whose checker run raises
an exception yields the single WA record with the checker-failure message. -/
theorem checker_failure_reports_WA_witness :
    run_dynamic_checker "CHK" "python"
        (execute_code "python" "print(1)" "in" 1000 64 acWorld).output "exp" "in"
        checkerRaisesWorld = (false, "Checker execution failed") ∧
    (judge_submission "python" "print(1)"
        ⟨[⟨"in", "exp"⟩], 1000, 64, some "CHK", some "python"⟩ (fun _ => acWorld)
        (fun _ => checkerRaisesWorld)).judge_output =
      [⟨1, Verdict.WA, (execute_code "python" "print(1)" "in" 1000 64 acWorld).execution_time,
        (execute_code "python" "print(1)" "in" 1000 64 acWorld).memory_used, "",
        "Checker execution failed"⟩] ∧
    (judge_submission "python" "print(1)"
        ⟨[⟨"in", "exp"⟩], 1000, 64, some "CHK", some "python"⟩ (fun _ => acWorld)
        (fun _ => checkerRaisesWorld)).verdict = Verdict.WA :=
  checker_failure_reports_WA "CHK" "python" "python" "print(1)" 1000 64
    (fun _ => acWorld) (fun _ => checkerRaisesWorld) ⟨"in", "exp"⟩ []
    (by decide) (by decide) (by decide) (by decide)

/-- A sandbox behaviour: the program exits non-zero quickly while its memory
accounting reads exactly the 64 MB cap (100% ≥ 95%). -/
def oomWorld : ExecWorld :=
  ⟨none, CompilePhase.finished 0 "", RunPhase.completed 1 10 "" "Killed" (64 * 1024 * 1024)⟩

/-- C8 fails as stated: an execution whose peak memory is at least 95% of the
64 MB cap together with a non-zero exit code is classified `RE`, not `MLE`
(the code has no 95% heuristic; `MLE` needs a zero exit code). -/
theorem oom_exit_classified_RE_counterexample :
    100 * (execute_code "python" "x" "y" 1000 64 oomWorld).memory_used ≥
      95 * (64 * 1024) ∧
    (execute_code "python" "x" "y" 1000 64 oomWorld).verdict = Verdict.RE ∧
    (execute_code "python" "x" "y" 1000 64 oomWorld).verdict ≠ Verdict.MLE := by
  decide

/-- C8 amended: an execution that completes with a non-zero exit code is
classified `TLE` when the measured time reached the limit and `RE` otherwise,
regardless of the reported peak memory; it is never classified `MLE`
(`MLE` is only assigned on a zero exit code with memory above the cap). -/
theorem nonzero_exit_never_MLE (language code test_input : String) (tl ml : Nat)
    (statusCode : Int) (elapsed : Nat) (out err : String) (usageBytes : Nat)
    (hlang : (language_configs language).isSome = true) (hstatus : statusCode ≠ 0) :
    (execute_code language code test_input tl ml
        ⟨none, CompilePhase.finished 0 "",
          RunPhase.completed statusCode elapsed out err usageBytes⟩).verdict =
      (if elapsed ≥ tl then Verdict.TLE else Verdict.RE) ∧
    (execute_code language code test_input tl ml
        ⟨none, CompilePhase.finished 0 "",
          RunPhase.completed statusCode elapsed out err usageBytes⟩).verdict ≠
      Verdict.MLE := by
  have hcw : (classify_wait tl ml
      (RunPhase.completed statusCode elapsed out err usageBytes)).verdict =
      if elapsed ≥ tl then Verdict.TLE else Verdict.RE := by
    simp only [classify_wait]
    rw [if_pos hstatus]
    split_ifs <;> rfl
  have hex : execute_code language code test_input tl ml
      ⟨none, CompilePhase.finished 0 "",
        RunPhase.completed statusCode elapsed out err usageBytes⟩ =
      classify_wait tl ml (RunPhase.completed statusCode elapsed out err usageBytes) := by
    unfold execute_code
    rcases hl : language_configs language with _ | cfg
    · rw [hl] at hlang
      exact absurd hlang (by simp)
    · rcases hc : cfg.compile_cmd with _ | cmd
      · simp [hc]
      · simp [hc]
  rw [hex, hcw]
  exact ⟨rfl, by split_ifs <;> simp⟩

/-- Concrete instance of the amended C8 at the 100%-of-cap non-zero exit. -/
theorem nonzero_exit_never_MLE_witness :
    (execute_code "python" "x" "y" 1000 64
        ⟨none, CompilePhase.finished 0 "",
          RunPhase.completed 1 10 "" "Killed" (64 * 1024 * 1024)⟩).verdict =
      (if 10 ≥ 1000 then Verdict.TLE else Verdict.RE) ∧
    (execute_code "python" "x" "y" 1000 64
        ⟨none, CompilePhase.finished 0 "",
          RunPhase.completed 1 10 "" "Killed" (64 * 1024 * 1024)⟩).verdict ≠
      Verdict.MLE :=
  nonzero_exit_never_MLE "python" "x" "y" 1000 64 1 10 "" "Killed" (64 * 1024 * 1024)
    (by decide) (by decide)

/-- C9: with no checker configured, the per-test verdict of a successful
execution is `AC` exactly when trimmed user output equals trimmed expected
output (leading/trailing whitespace stripped, nothing else normalized), and
`WA` otherwise; no checker message is attached. -/
theorem literal_comparison_decides (language code : String) (tl ml : Nat)
    (runW chkW : Nat → ExecWorld) (tc : TestCase) (rest : List TestCase) (i : Nat)
    (h : (execute_code language code tc.input tl ml (runW i)).verdict = Verdict.SUCCESS) :
    (judgeTests language code tl ml none none runW chkW (tc :: rest) i).results.head? =
      some ⟨i + 1,
        if pyStrip (execute_code language code tc.input tl ml (runW i)).output ==
            pyStrip tc.expected_output then Verdict.AC else Verdict.WA,
        (execute_code language code tc.input tl ml (runW i)).execution_time,
        (execute_code language code tc.input tl ml (runW i)).memory_used, "", ""⟩ := by
  have hpair : test_correctness none none
      (execute_code language code tc.input tl ml (runW i)).output tc.expected_output
      tc.input (chkW i) =
      (pyStrip (execute_code language code tc.input tl ml (runW i)).output ==
        pyStrip tc.expected_output, "") := by
    unfold test_correctness
    simp [pyTruthy]
  simp only [judgeTests, hpair]
  by_cases hb : (pyStrip (execute_code language code tc.input tl ml (runW i)).output ==
      pyStrip tc.expected_output) = true
  · simp [h, hb]
  · simp [h, hb]

/-- Concrete instance of C9: expected `42`, program prints `43` — the head
record carries `WA`. -/
theorem literal_comparison_decides_witness :
    (judgeTests "python" "print(43)" 500 64 none none
        (fun _ => ⟨none, CompilePhase.finished 0 "",
          RunPhase.completed 0 7 "43\n" "" 0⟩)
        (fun _ => acWorld) [⟨"", "42"⟩] 0).results.head? =
      some ⟨1,
        if pyStrip (execute_code "python" "print(43)" "" 500 64
            ⟨none, CompilePhase.finished 0 "", RunPhase.completed 0 7 "43\n" "" 0⟩).output ==
            pyStrip "42" then Verdict.AC else Verdict.WA,
        (execute_code "python" "print(43)" "" 500 64
          ⟨none, CompilePhase.finished 0 "", RunPhase.completed 0 7 "43\n" "" 0⟩).execution_time,
        (execute_code "python" "print(43)" "" 500 64
          ⟨none, CompilePhase.finished 0 "", RunPhase.completed 0 7 "43\n" "" 0⟩).memory_used,
        "", ""⟩ :=
  literal_comparison_decides "python" "print(43)" 500 64
    (fun _ => ⟨none, CompilePhase.finished 0 "", RunPhase.completed 0 7 "43\n" "" 0⟩)
    (fun _ => acWorld) ⟨"", "42"⟩ [] 0 (by decide)

/-- A sandbox behaviour with no exceptional event. -/
def plainWorld : ExecWorld :=
  ⟨none, CompilePhase.finished 0 "", RunPhase.completed 0 0 "" "" 0⟩

/-- C10: `execute_code` is total with verdict among CE/TLE/MLE/RE/SUCCESS,
and every modelled internal exception (setup failure, exception during the
compile phase, non-`APIError` exception or re-raised non-timeout `APIError`
during the run phase) is caught and mapped to `RE` with `execution_time = 0`
and `memory_used = 0` rather than propagated. -/
theorem execute_code_total_and_exception_safe (language code test_input : String)
    (tl ml : Nat) (w : ExecWorld) :
    ((execute_code language code test_input tl ml w).verdict = Verdict.CE ∨
     (execute_code language code test_input tl ml w).verdict = Verdict.TLE ∨
     (execute_code language code test_input tl ml w).verdict = Verdict.MLE ∨
     (execute_code language code test_input tl ml w).verdict = Verdict.RE ∨
     (execute_code language code test_input tl ml w).verdict = Verdict.SUCCESS) ∧
    ((language_configs language).isSome = true →
      (∀ msg cp rp, execute_code language code test_input tl ml ⟨some msg, cp, rp⟩ =
        ⟨Verdict.RE, "", msg, 0, 0⟩) ∧
      (∀ msg logs, execute_code language code test_input tl ml
          ⟨none, CompilePhase.finished 0 logs, RunPhase.raised msg⟩ =
        ⟨Verdict.RE, "", msg, 0, 0⟩) ∧
      (∀ msg logs, hasSubstrStr "timeout" (pyLower msg) = false →
        execute_code language code test_input tl ml
            ⟨none, CompilePhase.finished 0 logs, RunPhase.apiError msg⟩ =
          ⟨Verdict.RE, "", msg, 0, 0⟩)) ∧
    (∀ msg rp, execute_code "c" code test_input tl ml
        ⟨none, CompilePhase.raised msg, rp⟩ = ⟨Verdict.RE, "", msg, 0, 0⟩) := by
  refine ⟨execute_code_verdict_cases language code test_input tl ml w, fun hlang => ?_, ?_⟩
  · obtain ⟨cfg, hl⟩ := Option.isSome_iff_exists.mp hlang
    refine ⟨fun msg cp rp => ?_, fun msg logs => ?_, fun msg logs hmsg => ?_⟩
    · unfold execute_code
      rw [hl]
    · unfold execute_code
      rw [hl]
      rcases hc : cfg.compile_cmd with _ | cmd
      · simp [hc, classify_wait]
      · simp [hc, classify_wait]
    · unfold execute_code
      rw [hl]
      rcases hc : cfg.compile_cmd with _ | cmd
      · simp [hc, classify_wait, hmsg]
      · simp [hc, classify_wait, hmsg]
  · intro msg rp
    rfl

/-- Concrete instances of C10's exception mapping for every modelled
exception site. -/
theorem execute_code_exception_safe_witness :
    execute_code "python" "x" "y" 1000 64
        ⟨some "disk full", CompilePhase.finished 0 "", RunPhase.completed 0 0 "" "" 0⟩ =
      ⟨Verdict.RE, "", "disk full", 0, 0⟩ ∧
    execute_code "python" "x" "y" 1000 64
        ⟨none, CompilePhase.finished 0 "", RunPhase.raised "boom"⟩ =
      ⟨Verdict.RE, "", "boom", 0, 0⟩ ∧
    execute_code "python" "x" "y" 1000 64
        ⟨none, CompilePhase.finished 0 "", RunPhase.apiError "socket closed"⟩ =
      ⟨Verdict.RE, "", "socket closed", 0, 0⟩ ∧
    execute_code "c" "x" "y" 1000 64
        ⟨none, CompilePhase.raised "daemon gone", RunPhase.completed 0 0 "" "" 0⟩ =
      ⟨Verdict.RE, "", "daemon gone", 0, 0⟩ := by
  have h := execute_code_total_and_exception_safe "python" "x" "y" 1000 64 plainWorld
  have hc := execute_code_total_and_exception_safe "c" "x" "y" 1000 64 plainWorld
  exact ⟨(h.2.1 (by decide)).1 "disk full" (CompilePhase.finished 0 "")
      (RunPhase.completed 0 0 "" "" 0),
    (h.2.1 (by decide)).2.1 "boom" "",
    (h.2.1 (by decide)).2.2 "socket closed" "" (by decide),
    hc.2.2 "daemon gone" (RunPhase.completed 0 0 "" "" 0)⟩
